import Mathlib

/-!
Shallow embedding of the cloud-tasks emulator core (task.go and the server
façade file), over exact machine-integer semantics: Go `int64` / `int32`
values are represented as `Int` with explicit two's-complement wrapping where
the Go code can overflow, and Go's shift / unsigned-conversion semantics are
spelled out.
-/

namespace CloudTasks

/-- Two's-complement wrap of an integer into the Go `int64` range. -/
def wrap64 (x : Int) : Int := (x + 2 ^ 63) % 2 ^ 64 - 2 ^ 63

/-- Two's-complement wrap of an integer into the Go `int32` range. -/
def wrap32 (x : Int) : Int := (x + 2 ^ 31) % 2 ^ 32 - 2 ^ 31

/-- Go conversion `uint32(x)` of a signed value: the residue in `[0, 2^32)`. -/
def toUInt32 (x : Int) : Nat := (x % 2 ^ 32).toNat

/-- Go expression `1 << n` where the untyped constant `1` defaults to `int`
(64-bit): bits shifted out are lost, so the result is `2^n` wrapped to
`int64` (in particular `0` once `n ≥ 64`). -/
def goShl1 (n : Nat) : Int := wrap64 (2 ^ n)

/-- Go `int64` addition (wraps on overflow). -/
def addI64 (a b : Int) : Int := wrap64 (a + b)

/-- Go `int64` multiplication (wraps on overflow); used for
`minBackoff * time.Duration(1 << uint32(doubling))` in `task.go`. -/
def mulI64 (a b : Int) : Int := wrap64 (a * b)

/-- `google.protobuf.Timestamp`: `seconds` is `int64`, `nanos` is `int32`. -/
structure Timestamp where
  seconds : Int
  nanos : Int
  deriving DecidableEq, Repr

/-- `google.protobuf.Duration`: `seconds` is `int64`, `nanos` is `int32`. -/
structure ProtoDuration where
  seconds : Int
  nanos : Int
  deriving DecidableEq, Repr

/-- `ptypes.DurationProto` applied to a `time.Duration` (an `int64` count of
nanoseconds): Go integer division truncates toward zero, so `seconds` is the
truncated quotient and `nanos` the truncated remainder by `1e9`. -/
def durationProto (d : Int) : ProtoDuration :=
  ⟨Int.tdiv d 1000000000, Int.tmod d 1000000000⟩

/-- The `tasks.RetryConfig` fields read by `task.go`.  `maxAttempts` and
`maxDoublings` are the proto `int32` fields; `minBackoff` and `maxBackoff`
are the `time.Duration` (int64 nanosecond) values that
`ptypes.Duration(retryConfig.GetMinBackoff())` / `GetMaxBackoff()` yield. -/
structure RetryConfig where
  maxAttempts : Int
  maxDoublings : Int
  minBackoff : Int
  maxBackoff : Int
  deriving DecidableEq, Repr

/-- `rpcstatus.Status` as written by `updateStateAfterDispatch`: a taxonomy
code plus a human-readable message. -/
structure RpcStatus where
  code : Int
  message : String
  deriving DecidableEq, Repr

/-- `tasks.Attempt`: pointers to component messages are `Option`s. -/
structure Attempt where
  scheduleTime : Option Timestamp
  dispatchTime : Option Timestamp
  responseTime : Option Timestamp
  responseStatus : Option RpcStatus
  deriving DecidableEq, Repr

/-- The mutable `tasks.Task` state fields that the lifecycle functions in
`task.go` read and write. -/
structure TaskState where
  scheduleTime : Option Timestamp
  dispatchCount : Int
  responseCount : Int
  firstAttempt : Option Attempt
  lastAttempt : Option Attempt
  deriving DecidableEq, Repr

/-- `GetScheduleTime().GetSeconds()`: a nil proto pointer yields zero. -/
def TaskState.scheduleSeconds (ts : TaskState) : Int :=
  (ts.scheduleTime.map Timestamp.seconds).getD 0

/-- `GetScheduleTime().GetNanos()`: a nil proto pointer yields zero. -/
def TaskState.scheduleNanos (ts : TaskState) : Int :=
  (ts.scheduleTime.map Timestamp.nanos).getD 0

/-- The backoff duration computed by `updateStateForReschedule`
(task.go lines 148-155): `doubling := dispatchCount - 1` in `int32`
arithmetic, clamped from above by `maxDoublings`; then
`minBackoff * (1 << uint32(doubling))` in `int64` arithmetic, capped at
`maxBackoff`. -/
def computeBackoff (rc : RetryConfig) (dispatchCount : Int) : Int :=
  let doubling := wrap32 (dispatchCount - 1)
  let doubling := if doubling > rc.maxDoublings then rc.maxDoublings else doubling
  let backoff := mulI64 rc.minBackoff (goShl1 (toUInt32 doubling))
  if backoff > rc.maxBackoff then rc.maxBackoff else backoff

/-- `updateStateForReschedule` (task.go lines 137-176): computes the backoff,
converts it to a proto duration, and adds it to the previous schedule time
with explicit carry of nanosecond overflow into the seconds component.
`scheduleNanos` is computed in `int64` after widening both `int32` nanos
fields; the final `Nanos` field is the Go `int32(scheduleNanos)` conversion. -/
def updateStateForReschedule (rc : RetryConfig) (ts : TaskState) : TaskState :=
  let backoff := computeBackoff rc ts.dispatchCount
  let protoBackoff := durationProto backoff
  let scheduleNanos := ts.scheduleNanos + protoBackoff.nanos
  let scheduleSeconds := addI64 ts.scheduleSeconds protoBackoff.seconds
  let carry := scheduleNanos ≥ 1000000000
  let scheduleSeconds := if carry then addI64 scheduleSeconds 1 else scheduleSeconds
  let scheduleNanos := if carry then scheduleNanos - 1000000000 else scheduleNanos
  { ts with scheduleTime := some ⟨scheduleSeconds, wrap32 scheduleNanos⟩ }

/-- `updateStateForDispatch` (task.go lines 178-204): records a fresh
`LastAttempt` whose schedule time copies the task's current schedule time
(component-wise through nil-defaulting getters) and whose dispatch time is
now; increments `DispatchCount` (an `int32`); sets `FirstAttempt` — with only
its `DispatchTime` field — when it is absent. -/
def updateStateForDispatch (now : Timestamp) (ts : TaskState) : TaskState :=
  let lastAttempt : Attempt :=
    { scheduleTime := some ⟨ts.scheduleSeconds, ts.scheduleNanos⟩
      dispatchTime := some now
      responseTime := none
      responseStatus := none }
  let firstAttempt :=
    match ts.firstAttempt with
    | none => some { scheduleTime := none, dispatchTime := some now
                     responseTime := none, responseStatus := none }
    | some a => some a
  { ts with lastAttempt := some lastAttempt
            dispatchCount := wrap32 (ts.dispatchCount + 1)
            firstAttempt := firstAttempt }

/-- `updateStateAfterDispatch` (task.go lines 206-228): fills the last
attempt's response time and status and increments `ResponseCount` (`int32`).
Modelled from the spec: the status-code mapping `toRPCStatusCode` /
`toCodeName` lives in a repository file not present under src/; the spec
describes it as a pure map from transport status code to taxonomy code and
name, so it is abstracted by the parameter `rpc`.  When `LastAttempt` is nil
the Go code would dereference a nil pointer, returned here as `none`. -/
def updateStateAfterDispatch (rpc : Int → RpcStatus) (now : Timestamp)
    (statusCode : Int) (ts : TaskState) : Option TaskState :=
  match ts.lastAttempt with
  | none => none
  | some la =>
    some { ts with
            lastAttempt := some { la with responseTime := some now
                                          responseStatus := some (rpc statusCode) }
            responseCount := wrap32 (ts.responseCount + 1) }

/-- The branch taken by `Task.reschedule` (task.go lines 230-247). -/
inductive RescheduleAction where
  /-- 2xx: `task.onDone(task)` is invoked; nothing is rescheduled. -/
  | complete
  /-- non-2xx with retry disabled: no further action. -/
  | noAction
  /-- non-2xx, retry enabled, `DispatchCount >= MaxAttempts`: only the
  "Ran out of attempts" log; no reschedule, no completion callback. -/
  | exhausted
  /-- non-2xx, retry enabled, attempts remain: `updateStateForReschedule`
  then `Schedule()`. -/
  | reschedule
  deriving DecidableEq, Repr

/-- The decision structure of `Task.reschedule` (task.go lines 230-247). -/
def rescheduleDecision (retry : Bool) (statusCode : Int)
    (maxAttempts dispatchCount : Int) : RescheduleAction :=
  if 200 ≤ statusCode ∧ statusCode ≤ 299 then .complete
  else if retry then
    if dispatchCount ≥ maxAttempts then .exhausted else .reschedule
  else .noAction

/-- `Task.Run` (task.go lines 306-314): updates state for dispatch, returns
the frozen snapshot synchronously; the asynchronous `doDispatch` is armed
with `retry = false`, recorded here as the second component. -/
def Run (now : Timestamp) (ts : TaskState) : TaskState × Bool :=
  (updateStateForDispatch now ts, false)

/-! Server façade.  A Go map `map[string]*T` is modelled as an association
list over `Option T`: a missing key is true absence (the map read yields the
zero value `nil` with `ok = false`), while a key bound to `none` is a
tombstone (`m[k] = nil` with `ok = true`). -/

/-- gRPC status codes used by the façade. -/
inductive Code where
  | notFound
  | failedPrecondition
  | alreadyExists
  | invalidArgument
  | unimplemented
  deriving DecidableEq, Repr

/-- Outcome of one façade request: a reply, a gRPC error, or a process fault
(a nil-pointer dereference panic in the handler). -/
inductive ReqOutcome (α : Type) where
  | ok (a : α)
  | err (code : Code) (msg : String)
  | fault
  deriving DecidableEq, Repr

/-- Two-level lookup mirroring `v, ok := m[k]` on a Go pointer-valued map:
`none` = key absent, `some none` = tombstone, `some (some v)` = live entry. -/
def mapGet {α : Type} (m : List (String × Option α)) (k : String) :
    Option (Option α) :=
  match m with
  | [] => none
  | (k₀, v) :: rest => if k₀ = k then some v else mapGet rest k

/-- `m[k] = v` on the association-list model of a Go map. -/
def mapSet {α : Type} (m : List (String × Option α)) (k : String)
    (v : Option α) : List (String × Option α) :=
  match m with
  | [] => [(k, v)]
  | (k₀, v₀) :: rest =>
    if k₀ = k then (k₀, v) :: rest else (k₀, v₀) :: mapSet rest k v

/-- The server's task registry `s.ts : map[string]*Task`, each live task
carrying its state. -/
def TaskRegistry : Type := List (String × Option TaskState)

/-- The server's queue registry `s.qs : map[string]*Queue`; only liveness
matters to the façade paths modelled here, so a live queue is its (opaque)
state value. -/
def QueueRegistry (σ : Type) : Type := List (String × Option σ)

/-- `Server.GetTask` (façade file lines 182-192): absent name →
`NotFound "Task does not exist."`; tombstoned name (nil task pointer) →
`FailedPrecondition` with the "existed recently" message; live → its state. -/
def GetTask (reg : TaskRegistry) (name : String) : ReqOutcome TaskState :=
  match mapGet reg name with
  | none => .err .notFound "Task does not exist."
  | some none => .err .failedPrecondition
      "The task no longer exists,  though a task with this name existed recently. The task either successfully completed or was deleted."
  | some (some st) => .ok st

/-- The `onDone` callback installed by `Server.CreateQueue` (façade file
lines 88-91): finalizing a task stores `nil` under its name, leaving a
tombstone in the registry. -/
def tombstoneTask (reg : TaskRegistry) (name : String) : TaskRegistry :=
  mapSet reg name none

/-- `Server.GetQueue` (façade file lines 52-59): the handler reads
`s.qs[name]` without an ok-check (`// TODO: handle not found`) and returns
`queue.state` — a field access through the queue pointer.  For an absent
name the map read yields `nil`, and for a tombstoned name the stored value
is `nil`; either way the dereference faults. -/
def GetQueue {σ : Type} (reg : QueueRegistry σ) (name : String) :
    ReqOutcome σ :=
  match mapGet reg name with
  | none => .fault
  | some none => .fault
  | some (some q) => .ok q

/-- `Server.PurgeQueue` (façade file lines 121-128): reads `s.qs[name]`
discarding the ok flag, then calls `queue.Purge()` and returns
`queue.state`.  On a `nil` queue pointer the handler faults: even in the
most charitable model of `Purge()` (its body is in a repository file not
under src/; the spec has it cancel every owned task, which dereferences the
queue), the `queue.state` access in this handler dereferences `nil`.
`PauseQueue` and `ResumeQueue` (lines 131-146) have the same shape. -/
def PurgeQueue {σ : Type} (reg : QueueRegistry σ) (name : String) :
    ReqOutcome σ :=
  match mapGet reg name with
  | none => .fault
  | some none => .fault
  | some (some q) => .ok q

/-! Helper lemmas about the machine-integer primitives. -/

theorem wrap64_eq_of (x : Int) (h1 : -(2 ^ 63) ≤ x) (h2 : x < 2 ^ 63) :
    wrap64 x = x := by
  unfold wrap64
  have h3 : (0 : Int) ≤ x + 2 ^ 63 := by linarith
  have h4 : x + 2 ^ 63 < 2 ^ 64 := by norm_num; linarith
  rw [Int.emod_eq_of_lt h3 h4]
  ring

theorem wrap32_eq_of (x : Int) (h1 : -(2 ^ 31) ≤ x) (h2 : x < 2 ^ 31) :
    wrap32 x = x := by
  unfold wrap32
  have h3 : (0 : Int) ≤ x + 2 ^ 31 := by linarith
  have h4 : x + 2 ^ 31 < 2 ^ 32 := by norm_num; linarith
  rw [Int.emod_eq_of_lt h3 h4]
  ring

theorem goShl1_eq_of (n : Nat) (h : n ≤ 62) : goShl1 n = 2 ^ n := by
  unfold goShl1
  have h1 : (2 : Int) ^ n ≤ 2 ^ 62 := pow_le_pow_right₀ (by norm_num) h
  have h2 : (2 : Int) ^ n < 2 ^ 63 := lt_of_le_of_lt h1 (by norm_num)
  have h3 : (0 : Int) < 2 ^ n := pow_pos (by norm_num) n
  exact wrap64_eq_of _ (by linarith) h2

theorem toUInt32_eq_of (x : Int) (h1 : 0 ≤ x) (h2 : x < 2 ^ 32) :
    toUInt32 x = x.toNat := by
  unfold toUInt32
  rw [Int.emod_eq_of_lt h1 h2]

theorem if_gt_eq_min (a b : Int) : (if a > b then b else a) = min a b := by
  rcases le_or_lt a b with h | h
  · rw [if_neg (not_lt.mpr h), min_eq_left h]
  · rw [if_pos h, min_eq_right h.le]

/-- In the overflow-free regime, the backoff computed by
`updateStateForReschedule` is exactly
`min (minBackoff * 2 ^ min (dispatchCount - 1) maxDoublings) maxBackoff`. -/
theorem computeBackoff_eq (rc : RetryConfig) (dc : Int)
    (h1 : 1 ≤ dc) (h2 : dc ≤ 2 ^ 31 - 1)
    (h3 : 0 ≤ rc.maxDoublings) (h4 : rc.maxDoublings ≤ 2 ^ 31 - 1)
    (h5 : 0 ≤ rc.minBackoff)
    (h6 : rc.minBackoff * 2 ^ (min (dc - 1) rc.maxDoublings).toNat < 2 ^ 63) :
    computeBackoff rc dc =
      min (rc.minBackoff * 2 ^ (min (dc - 1) rc.maxDoublings).toNat)
        rc.maxBackoff := by
  have hw : wrap32 (dc - 1) = dc - 1 := wrap32_eq_of _ (by linarith) (by linarith)
  have hmin : (if dc - 1 > rc.maxDoublings then rc.maxDoublings else dc - 1) =
      min (dc - 1) rc.maxDoublings := if_gt_eq_min _ _
  have he0 : 0 ≤ min (dc - 1) rc.maxDoublings := le_min (by linarith) h3
  have he1 : min (dc - 1) rc.maxDoublings < 2 ^ 32 :=
    lt_of_le_of_lt (min_le_right _ _) (by linarith)
  simp only [computeBackoff, hw, hmin, toUInt32_eq_of _ he0 he1]
  rcases eq_or_lt_of_le h5 with hz | hpos
  · have hm : mulI64 rc.minBackoff (goShl1 (min (dc - 1) rc.maxDoublings).toNat) = 0 := by
      unfold mulI64
      rw [← hz, zero_mul]
      exact wrap64_eq_of 0 (by norm_num) (by norm_num)
    rw [hm, ← hz, zero_mul]
    exact if_gt_eq_min _ _
  · have hexp : (min (dc - 1) rc.maxDoublings).toNat ≤ 62 := by
      by_contra hc
      push_neg at hc
      have hp : (2 : Int) ^ 63 ≤ 2 ^ (min (dc - 1) rc.maxDoublings).toNat :=
        pow_le_pow_right₀ (by norm_num) hc
      have hb : (2 : Int) ^ 63 ≤
          rc.minBackoff * 2 ^ (min (dc - 1) rc.maxDoublings).toNat := by
        nlinarith
      linarith
    rw [goShl1_eq_of _ hexp]
    have hm : mulI64 rc.minBackoff (2 ^ (min (dc - 1) rc.maxDoublings).toNat) =
        rc.minBackoff * 2 ^ (min (dc - 1) rc.maxDoublings).toNat := by
      apply wrap64_eq_of
      · have : (0 : Int) ≤ rc.minBackoff * 2 ^ (min (dc - 1) rc.maxDoublings).toNat := by
          positivity
        linarith
      · exact h6
    rw [hm]
    exact if_gt_eq_min _ _

/-- The cap branch of `computeBackoff` bounds the result by `maxBackoff`,
with no hypotheses at all. -/
theorem computeBackoff_le_max (rc : RetryConfig) (dc : Int) :
    computeBackoff rc dc ≤ rc.maxBackoff := by
  simp only [computeBackoff]
  rw [if_gt_eq_min]
  exact min_le_right _ _

theorem computeBackoff_mono (rc : RetryConfig) (dc dc' : Int)
    (h1 : 1 ≤ dc) (h2 : dc ≤ dc') (h2' : dc' ≤ 2 ^ 31 - 1)
    (h3 : 0 ≤ rc.maxDoublings) (h4 : rc.maxDoublings ≤ 2 ^ 31 - 1)
    (h5 : 0 ≤ rc.minBackoff)
    (h6 : rc.minBackoff * 2 ^ (min (dc' - 1) rc.maxDoublings).toNat < 2 ^ 63) :
    computeBackoff rc dc ≤ computeBackoff rc dc' := by
  have hme : min (dc - 1) rc.maxDoublings ≤ min (dc' - 1) rc.maxDoublings :=
    min_le_min (by linarith) (le_refl _)
  have hexp : (min (dc - 1) rc.maxDoublings).toNat ≤
      (min (dc' - 1) rc.maxDoublings).toNat := Int.toNat_le_toNat hme
  have hpow : (2 : Int) ^ (min (dc - 1) rc.maxDoublings).toNat ≤
      2 ^ (min (dc' - 1) rc.maxDoublings).toNat :=
    pow_le_pow_right₀ (by norm_num) hexp
  have hprod : rc.minBackoff * 2 ^ (min (dc - 1) rc.maxDoublings).toNat ≤
      rc.minBackoff * 2 ^ (min (dc' - 1) rc.maxDoublings).toNat :=
    mul_le_mul_of_nonneg_left hpow h5
  rw [computeBackoff_eq rc dc h1 (by linarith) h3 h4 h5
        (lt_of_le_of_lt hprod h6),
      computeBackoff_eq rc dc' (by linarith) h2' h3 h4 h5 h6]
  exact min_le_min hprod (le_refl _)

/-- C1 counterexample: the claim quantifies over every retry policy, but with
min_backoff = 1s, max_backoff = 10s, max_doublings = 100 and
dispatch_count = 101 the Go expression `1 << uint32(100)` on 64-bit int is
zero, so the computed backoff is 0 and not the claimed
min(1s·2^100, 10s) = 10s. -/
theorem c1_backoff_formula_counterexample :
    computeBackoff ⟨0, 100, 1000000000, 10000000000⟩ 101 ≠
      min ((1000000000 : Int) * 2 ^ (min ((101 : Int) - 1) 100).toNat)
        10000000000 := by
  decide

/-- C1 (amended): in the overflow-free regime — dispatch_count at least 1 and
within int32 range, max_doublings non-negative and within int32 range,
min_backoff non-negative, and min_backoff·2^min(dispatch_count−1,
max_doublings) within int64 — the backoff computed by
update-for-reschedule equals min_backoff * 2^min(dispatch_count - 1,
max_doublings) capped at max_backoff, is monotonically non-decreasing in
dispatch_count, and never exceeds max_backoff. -/
theorem c1_backoff_formula_and_monotone (rc : RetryConfig) (dc dc' : Int)
    (h1 : 1 ≤ dc) (h2 : dc ≤ dc') (h2' : dc' ≤ 2 ^ 31 - 1)
    (h3 : 0 ≤ rc.maxDoublings) (h4 : rc.maxDoublings ≤ 2 ^ 31 - 1)
    (h5 : 0 ≤ rc.minBackoff)
    (h6 : rc.minBackoff * 2 ^ (min (dc' - 1) rc.maxDoublings).toNat < 2 ^ 63) :
    computeBackoff rc dc =
        min (rc.minBackoff * 2 ^ (min (dc - 1) rc.maxDoublings).toNat)
          rc.maxBackoff
      ∧ computeBackoff rc dc ≤ computeBackoff rc dc'
      ∧ computeBackoff rc dc ≤ rc.maxBackoff := by
  have hme : min (dc - 1) rc.maxDoublings ≤ min (dc' - 1) rc.maxDoublings :=
    min_le_min (by linarith) (le_refl _)
  have hpow : (2 : Int) ^ (min (dc - 1) rc.maxDoublings).toNat ≤
      2 ^ (min (dc' - 1) rc.maxDoublings).toNat :=
    pow_le_pow_right₀ (by norm_num) (Int.toNat_le_toNat hme)
  have hprod : rc.minBackoff * 2 ^ (min (dc - 1) rc.maxDoublings).toNat ≤
      rc.minBackoff * 2 ^ (min (dc' - 1) rc.maxDoublings).toNat :=
    mul_le_mul_of_nonneg_left hpow h5
  exact ⟨computeBackoff_eq rc dc h1 (by linarith) h3 h4 h5
          (lt_of_le_of_lt hprod h6),
        computeBackoff_mono rc dc dc' h1 h2 h2' h3 h4 h5 h6,
        computeBackoff_le_max rc dc⟩

theorem c1_backoff_formula_and_monotone_witness :
    computeBackoff ⟨5, 3, 1000000000, 10000000000⟩ 2 =
        min ((1000000000 : Int) * 2 ^ (min ((2 : Int) - 1) 3).toNat)
          10000000000
      ∧ computeBackoff ⟨5, 3, 1000000000, 10000000000⟩ 2 ≤
          computeBackoff ⟨5, 3, 1000000000, 10000000000⟩ 5
      ∧ computeBackoff ⟨5, 3, 1000000000, 10000000000⟩ 2 ≤ 10000000000 :=
  c1_backoff_formula_and_monotone ⟨5, 3, 1000000000, 10000000000⟩ 2 5
    (by decide) (by decide) (by decide) (by decide) (by decide) (by decide)
    (by decide)

/-- C3 counterexample: with max_attempts = 0, a retry-enabled attempt with
dispatch_count = 1 and status 500 takes the "Ran out of attempts" branch,
which the claim says is never taken. -/
theorem c3_unbounded_retries_counterexample :
    rescheduleDecision true 500 0 1 = .exhausted := by
  decide

/-- C3 (amended): with max attempts = 0 retries are not unbounded but
impossible — every retry-enabled attempt that ends with a non-2xx status
and dispatch_count ≥ 0 takes the retries-exhausted branch, because the
guard `DispatchCount >= MaxAttempts` compares against 0; the reschedule
branch is only reached when dispatch_count < max_attempts. -/
theorem c3_max_attempts_zero_exhausts (status dc : Int)
    (hs : ¬(200 ≤ status ∧ status ≤ 299)) (hdc : 0 ≤ dc) :
    rescheduleDecision true status 0 dc = .exhausted := by
  simp [rescheduleDecision, hs, hdc]

theorem c3_max_attempts_zero_exhausts_witness :
    rescheduleDecision true 503 0 4 = .exhausted :=
  c3_max_attempts_zero_exhausts 503 4 (by decide) (by decide)

/-- C5: every attempt whose outcome status lies in 200–299 takes the
completion branch of `Task.reschedule` — the completion callback is invoked
and nothing further is scheduled — regardless of the retry flag,
max_attempts and dispatch_count. -/
theorem c5_success_completes (retry : Bool) (status ma dc : Int)
    (h2xx : 200 ≤ status ∧ status ≤ 299) :
    rescheduleDecision retry status ma dc = .complete := by
  simp [rescheduleDecision, h2xx]

theorem c5_success_completes_witness :
    rescheduleDecision false 204 5 3 = .complete :=
  c5_success_completes false 204 5 3 (by decide)

theorem durationProto_spec (b : Int) (hb0 : 0 ≤ b) :
    1000000000 * (durationProto b).seconds + (durationProto b).nanos = b
    ∧ 0 ≤ (durationProto b).seconds
    ∧ 0 ≤ (durationProto b).nanos ∧ (durationProto b).nanos < 1000000000 :=
  ⟨Int.tdiv_add_tmod b 1000000000, Int.tdiv_nonneg hb0 (by norm_num),
    Int.tmod_nonneg _ hb0, Int.tmod_lt_of_pos b (by norm_num)⟩

/-- C2: for a previous schedule time with seconds in the proto-timestamp
range and sub-second component in [0, 1e9), and a non-negative backoff no
larger than the proto-duration bound (whose proto form therefore has a
sub-second component in [0, 1e9)), update-for-reschedule sets the new
schedule time to exactly previous schedule time + backoff, carrying
sub-second overflow into the seconds component so that the resulting
sub-second component is again in [0, 1e9). -/
theorem c2_reschedule_adds_backoff_exactly (rc : RetryConfig) (ts : TaskState)
    (s n : Int) (hst : ts.scheduleTime = some ⟨s, n⟩)
    (hn0 : 0 ≤ n) (hn1 : n < 1000000000)
    (hs0 : 0 ≤ s) (hs1 : s ≤ 253402300799)
    (hb0 : 0 ≤ computeBackoff rc ts.dispatchCount)
    (hb1 : computeBackoff rc ts.dispatchCount ≤ 315576000000 * 1000000000) :
    ∃ s2 n2 : Int,
      (updateStateForReschedule rc ts).scheduleTime = some ⟨s2, n2⟩
      ∧ s2 * 1000000000 + n2 =
          (s * 1000000000 + n) + computeBackoff rc ts.dispatchCount
      ∧ 0 ≤ n2 ∧ n2 < 1000000000 := by
  obtain ⟨hid, hq0, hr0, hr1⟩ :=
    durationProto_spec (computeBackoff rc ts.dispatchCount) hb0
  have hq1 : (durationProto (computeBackoff rc ts.dispatchCount)).seconds ≤
      315576000000 := by nlinarith
  have hsn : ts.scheduleNanos = n := by
    simp [TaskState.scheduleNanos, hst]
  have hss : ts.scheduleSeconds = s := by
    simp [TaskState.scheduleSeconds, hst]
  simp only [updateStateForReschedule, hsn, hss]
  set B := computeBackoff rc ts.dispatchCount with hB
  set ps := (durationProto B).seconds with hps
  set pn := (durationProto B).nanos with hpn
  have hadd : addI64 s ps = s + ps :=
    wrap64_eq_of _ (by norm_num; linarith) (by norm_num; linarith)
  have hadd1 : addI64 (s + ps) 1 = s + ps + 1 :=
    wrap64_eq_of _ (by norm_num; linarith) (by norm_num; linarith)
  rw [hadd]
  split_ifs with hc
  · have hge : 1000000000 ≤ n + pn := hc
    have hwn : wrap32 (n + pn - 1000000000) = n + pn - 1000000000 :=
      wrap32_eq_of _ (by norm_num; linarith) (by norm_num; linarith)
    refine ⟨s + ps + 1, n + pn - 1000000000, by rw [hadd1, hwn], ?_, ?_, ?_⟩
    · linarith
    · linarith
    · linarith
  · have hlt : n + pn < 1000000000 := by
      simpa using hc
    have hwn : wrap32 (n + pn) = n + pn :=
      wrap32_eq_of _ (by norm_num; linarith) (by norm_num; linarith)
    refine ⟨s + ps, n + pn, by rw [hwn], ?_, ?_, ?_⟩
    · linarith
    · linarith
    · linarith

theorem c2_reschedule_adds_backoff_exactly_witness :
    ∃ s2 n2 : Int,
      (updateStateForReschedule ⟨0, 0, 200000000, 200000000⟩
          ⟨some ⟨5, 900000000⟩, 1, 0, none, none⟩).scheduleTime =
        some ⟨s2, n2⟩
      ∧ s2 * 1000000000 + n2 =
          ((5 : Int) * 1000000000 + 900000000) +
            computeBackoff ⟨0, 0, 200000000, 200000000⟩
              (TaskState.dispatchCount ⟨some ⟨5, 900000000⟩, 1, 0, none, none⟩)
      ∧ 0 ≤ n2 ∧ n2 < 1000000000 :=
  c2_reschedule_adds_backoff_exactly ⟨0, 0, 200000000, 200000000⟩
    ⟨some ⟨5, 900000000⟩, 1, 0, none, none⟩ 5 900000000 rfl
    (by decide) (by decide) (by decide) (by decide) (by decide) (by decide)

/-- C6: update-for-dispatch increments dispatch_count by exactly 1 (within
the int32 range); update-for-reschedule and update-after-dispatch leave
dispatch_count unchanged, so no state-update operation ever decreases it;
and update-after-dispatch — the completed-attempt update — increments
response_count by exactly 1. -/
theorem c6_counters (now now2 : Timestamp) (rpc : Int → RpcStatus)
    (rc : RetryConfig) (status : Int) (ts : TaskState) (la : Attempt)
    (hd0 : 0 ≤ ts.dispatchCount) (hd1 : ts.dispatchCount < 2 ^ 31 - 1)
    (hr0 : 0 ≤ ts.responseCount) (hr1 : ts.responseCount < 2 ^ 31 - 1)
    (hla : ts.lastAttempt = some la) :
    (updateStateForDispatch now ts).dispatchCount = ts.dispatchCount + 1
    ∧ (updateStateForReschedule rc ts).dispatchCount = ts.dispatchCount
    ∧ ∃ ts2, updateStateAfterDispatch rpc now2 status ts = some ts2
        ∧ ts2.dispatchCount = ts.dispatchCount
        ∧ ts2.responseCount = ts.responseCount + 1 := by
  refine ⟨?_, rfl, ?_⟩
  · simp only [updateStateForDispatch]
    exact wrap32_eq_of _ (by linarith) (by linarith)
  · refine ⟨{ ts with
        lastAttempt := some { la with responseTime := some now2,
                                      responseStatus := some (rpc status) },
        responseCount := wrap32 (ts.responseCount + 1) }, ?_, rfl, ?_⟩
    · simp only [updateStateAfterDispatch, hla]
    · exact wrap32_eq_of _ (by linarith) (by linarith)

theorem c6_counters_witness :
    (updateStateForDispatch ⟨100, 7⟩
        ⟨some ⟨5, 0⟩, 1, 1, none, some ⟨some ⟨5, 0⟩, some ⟨90, 0⟩, none, none⟩⟩).dispatchCount = 1 + 1
    ∧ (updateStateForReschedule ⟨0, 0, 1000000000, 1000000000⟩
        ⟨some ⟨5, 0⟩, 1, 1, none, some ⟨some ⟨5, 0⟩, some ⟨90, 0⟩, none, none⟩⟩).dispatchCount = 1
    ∧ ∃ ts2, updateStateAfterDispatch (fun c => ⟨c, ""⟩) ⟨101, 0⟩ 500
        ⟨some ⟨5, 0⟩, 1, 1, none, some ⟨some ⟨5, 0⟩, some ⟨90, 0⟩, none, none⟩⟩ = some ts2
        ∧ ts2.dispatchCount = 1
        ∧ ts2.responseCount = 1 + 1 :=
  c6_counters ⟨100, 7⟩ ⟨101, 0⟩ (fun c => ⟨c, ""⟩) ⟨0, 0, 1000000000, 1000000000⟩
    500 ⟨some ⟨5, 0⟩, 1, 1, none, some ⟨some ⟨5, 0⟩, some ⟨90, 0⟩, none, none⟩⟩
    ⟨some ⟨5, 0⟩, some ⟨90, 0⟩, none, none⟩
    (by decide) (by decide) (by decide) (by decide) rfl

/-- C7: Run synchronously returns the immutable snapshot produced by
update-for-dispatch — on a first run the snapshot has dispatch_count = 1 and
a last attempt whose schedule and dispatch times are populated while its
response fields are still unset — and arms the asynchronous dispatch with
retry disabled, so the reschedule decision for any non-2xx result of Run is
no action (no reschedule). -/
theorem c7_run_snapshot (now : Timestamp) (ts : TaskState)
    (ma dc status : Int) (h0 : ts.dispatchCount = 0)
    (hs : ¬(200 ≤ status ∧ status ≤ 299)) :
    (Run now ts).1 = updateStateForDispatch now ts
    ∧ (Run now ts).1.dispatchCount = 1
    ∧ (Run now ts).1.lastAttempt =
        some ⟨some ⟨ts.scheduleSeconds, ts.scheduleNanos⟩, some now, none, none⟩
    ∧ (Run now ts).2 = false
    ∧ rescheduleDecision (Run now ts).2 status ma dc = .noAction := by
  refine ⟨rfl, ?_, rfl, rfl, ?_⟩
  · simp only [Run, updateStateForDispatch, h0]
    decide
  · simp [Run, rescheduleDecision, hs]

theorem c7_run_snapshot_witness :
    (Run ⟨100, 7⟩ ⟨some ⟨5, 0⟩, 0, 0, none, none⟩).1 =
        updateStateForDispatch ⟨100, 7⟩ ⟨some ⟨5, 0⟩, 0, 0, none, none⟩
    ∧ (Run ⟨100, 7⟩ ⟨some ⟨5, 0⟩, 0, 0, none, none⟩).1.dispatchCount = 1
    ∧ (Run ⟨100, 7⟩ ⟨some ⟨5, 0⟩, 0, 0, none, none⟩).1.lastAttempt =
        some ⟨some ⟨5, 0⟩, some ⟨100, 7⟩, none, none⟩
    ∧ (Run ⟨100, 7⟩ ⟨some ⟨5, 0⟩, 0, 0, none, none⟩).2 = false
    ∧ rescheduleDecision (Run ⟨100, 7⟩ ⟨some ⟨5, 0⟩, 0, 0, none, none⟩).2
        500 5 1 = .noAction :=
  c7_run_snapshot ⟨100, 7⟩ ⟨some ⟨5, 0⟩, 0, 0, none, none⟩ 5 1 500 rfl
    (by decide)

/-- C10 counterexample: after the very first dispatch of a concrete fresh
task, first_attempt records no schedule time at all, while the last_attempt
written by the same update-for-dispatch carries the task's schedule time —
so first_attempt does not carry the same schedule time as last_attempt. -/
theorem c10_first_attempt_counterexample :
    (updateStateForDispatch ⟨100, 7⟩
        ⟨some ⟨5, 0⟩, 0, 0, none, none⟩).firstAttempt.map Attempt.scheduleTime ≠
      (updateStateForDispatch ⟨100, 7⟩
        ⟨some ⟨5, 0⟩, 0, 0, none, none⟩).lastAttempt.map Attempt.scheduleTime := by
  decide

/-- C10 (amended): after the very first dispatch, first_attempt is the
record of that dispatch carrying the same dispatch time as last_attempt but
with its schedule time left unset (the code populates only its
DispatchTime); first_attempt is never overwritten by a later
update-for-dispatch; and last_attempt is always the record of the most
recent dispatch, with the current schedule time copied in and the dispatch
time set to now. -/
theorem c10_first_last_attempts (now now2 : Timestamp) (ts ts2 : TaskState)
    (a : Attempt) (hfa : ts.firstAttempt = none)
    (hfa2 : ts2.firstAttempt = some a) :
    (updateStateForDispatch now ts).firstAttempt =
        some ⟨none, some now, none, none⟩
    ∧ (updateStateForDispatch now ts).firstAttempt.map Attempt.dispatchTime =
        (updateStateForDispatch now ts).lastAttempt.map Attempt.dispatchTime
    ∧ (updateStateForDispatch now2 ts2).firstAttempt = some a
    ∧ (updateStateForDispatch now2 ts2).lastAttempt =
        some ⟨some ⟨ts2.scheduleSeconds, ts2.scheduleNanos⟩, some now2, none,
          none⟩ := by
  refine ⟨?_, ?_, ?_, rfl⟩
  · simp only [updateStateForDispatch, hfa]
  · simp only [updateStateForDispatch, hfa]
    rfl
  · simp only [updateStateForDispatch, hfa2]

theorem c10_first_last_attempts_witness :
    (updateStateForDispatch ⟨100, 7⟩
        ⟨some ⟨5, 0⟩, 0, 0, none, none⟩).firstAttempt =
        some ⟨none, some ⟨100, 7⟩, none, none⟩
    ∧ (updateStateForDispatch ⟨100, 7⟩
        ⟨some ⟨5, 0⟩, 0, 0, none, none⟩).firstAttempt.map Attempt.dispatchTime =
        (updateStateForDispatch ⟨100, 7⟩
          ⟨some ⟨5, 0⟩, 0, 0, none, none⟩).lastAttempt.map Attempt.dispatchTime
    ∧ (updateStateForDispatch ⟨200, 0⟩
        ⟨some ⟨6, 0⟩, 1, 1, some ⟨none, some ⟨100, 7⟩, none, none⟩,
          none⟩).firstAttempt = some ⟨none, some ⟨100, 7⟩, none, none⟩
    ∧ (updateStateForDispatch ⟨200, 0⟩
        ⟨some ⟨6, 0⟩, 1, 1, some ⟨none, some ⟨100, 7⟩, none, none⟩,
          none⟩).lastAttempt = some ⟨some ⟨6, 0⟩, some ⟨200, 0⟩, none, none⟩ :=
  c10_first_last_attempts ⟨100, 7⟩ ⟨200, 0⟩
    ⟨some ⟨5, 0⟩, 0, 0, none, none⟩
    ⟨some ⟨6, 0⟩, 1, 1, some ⟨none, some ⟨100, 7⟩, none, none⟩, none⟩
    ⟨none, some ⟨100, 7⟩, none, none⟩ rfl rfl

theorem mapGet_mapSet_self {α : Type} (m : List (String × Option α))
    (k : String) (v : Option α) : mapGet (mapSet m k v) k = some v := by
  induction m with
  | nil => simp [mapSet, mapGet]
  | cons hd tl ih =>
    obtain ⟨k₀, v₀⟩ := hd
    by_cases h : k₀ = k
    · simp [mapSet, mapGet, h]
    · simp [mapSet, mapGet, h, ih]

/-- C8: a lookup of a name under which only a tombstone remains (as left by
the completion callback installed at queue creation, which stores nil under
the finalized task's name) returns the FailedPrecondition "existed
recently" error; a lookup of a name absent entirely returns the NotFound
"never existed" error; and the two results are distinct. -/
theorem c8_tombstone_vs_absent (reg : TaskRegistry) (gone absent : String)
    (habs : mapGet reg absent = none) :
    GetTask (tombstoneTask reg gone) gone =
        .err .failedPrecondition
          "The task no longer exists,  though a task with this name existed recently. The task either successfully completed or was deleted."
    ∧ GetTask reg absent = .err .notFound "Task does not exist."
    ∧ GetTask (tombstoneTask reg gone) gone ≠ GetTask reg absent := by
  have h1 : mapGet (tombstoneTask reg gone) gone = some none :=
    mapGet_mapSet_self reg gone none
  refine ⟨?_, ?_, ?_⟩
  · simp [GetTask, h1]
  · simp [GetTask, habs]
  · simp [GetTask, h1, habs]

theorem c8_tombstone_vs_absent_witness :
    GetTask (tombstoneTask ([] : TaskRegistry) "projects/p/locations/l/queues/q/tasks/1")
        "projects/p/locations/l/queues/q/tasks/1" =
        .err .failedPrecondition
          "The task no longer exists,  though a task with this name existed recently. The task either successfully completed or was deleted."
    ∧ GetTask ([] : TaskRegistry) "projects/p/locations/l/queues/q/tasks/2" =
        .err .notFound "Task does not exist."
    ∧ GetTask (tombstoneTask ([] : TaskRegistry) "projects/p/locations/l/queues/q/tasks/1")
        "projects/p/locations/l/queues/q/tasks/1" ≠
        GetTask ([] : TaskRegistry) "projects/p/locations/l/queues/q/tasks/2" :=
  c8_tombstone_vs_absent ([] : TaskRegistry)
    "projects/p/locations/l/queues/q/tasks/1"
    "projects/p/locations/l/queues/q/tasks/2" rfl

/-- C9: the claim says these handlers report a lookup error instead of
dereferencing a missing queue, but the code has no lookup-error branch
(`// TODO: handle not found`): for a queue name that is absent, and for one
that is tombstoned by a deletion, GetQueue and PurgeQueue dereference a nil
queue pointer and fault the process. -/
theorem c9_queue_lookup_faults :
    GetQueue ([] : QueueRegistry Unit) "projects/p/locations/l/queues/q" =
        .fault
    ∧ GetQueue [("projects/p/locations/l/queues/q", (none : Option Unit))]
        "projects/p/locations/l/queues/q" = .fault
    ∧ PurgeQueue ([] : QueueRegistry Unit) "projects/p/locations/l/queues/q" =
        .fault
    ∧ PurgeQueue [("projects/p/locations/l/queues/q", (none : Option Unit))]
        "projects/p/locations/l/queues/q" = .fault := by
  refine ⟨rfl, ?_, rfl, ?_⟩
  · simp [GetQueue, mapGet]
  · simp [PurgeQueue, mapGet]

end CloudTasks
